import Mathlib

/-!
Shallow embedding of `src/AnomalyDetector.py`: two anomaly-detection
strategies (`GMM`, `DeepLearning`) behind a factory
(`AnomalyDetectorFactory.anomaly_detector`).

Numeric values (numpy/tensorflow floats) are modelled over a linear ordered
field `α`; concrete evaluations use `α = ℚ`, and the threshold formula
(which needs a square root for `np.std`) is stated over `α = ℝ`.

Stateful Python objects become explicit state records; `print` output is
collected into a list of `Out` events; a raised, uncaught Python exception
becomes a `PyError` value.  Library artifacts that live outside the
repository (the persisted scaler, the fitted `GaussianMixture`, the Keras
model) are modelled by their interface: an opaque record of the functions
the source calls on them.
-/

/-- Outcome of `joblib.load` / `keras.models.load_model` on one file:
success, `FileNotFoundError`, or any other loading exception. -/
inductive LoadResult (β : Type) where
  | ok (v : β)
  | notFound
  | err (msg : String)

/-- An uncaught Python exception, as raised by the source. -/
inductive PyError where
  | attributeError (attr : String)
  | valueError (msg : String)
  | typeError (msg : String)
  deriving DecidableEq

/-- A previously fitted sklearn-style scaler: persisted fitted parameters
(`params`), a fitting procedure recomputing parameters from a batch
(`fitParams`), and the parametrised transform (`transformWith`).
`transform` applies the persisted fit; `fit_transform` first re-fits on the
batch (sklearn semantics: `fit_transform X = fit X; transform X`). -/
structure Scaler (α : Type) where
  params : List α
  fitParams : List (List α) → List α
  transformWith : List α → List (List α) → List (List α)

/-- sklearn `scaler.transform`: apply the stored fitted parameters. -/
def Scaler.transform {α : Type} (s : Scaler α) (X : List (List α)) : List (List α) :=
  s.transformWith s.params X

/-- sklearn `scaler.fit_transform`: re-fit on the batch, then transform. -/
def Scaler.fit_transform {α : Type} (s : Scaler α) (X : List (List α)) : List (List α) :=
  s.transformWith (s.fitParams X) X

/-- A fitted `GaussianMixture`: the source only calls `score_samples`,
which returns one log-likelihood per input sample. -/
structure GMMModel (α : Type) where
  score_samples : List (List α) → List α
  score_samples_length : ∀ X, (score_samples X).length = X.length

/-- A Keras model: the source only calls `predict`, which returns one
reconstruction row per input sample. -/
structure DLModel (α : Type) where
  predict : List (List α) → List (List α)
  predict_length : ∀ X, (predict X).length = X.length

/-- The file system seen by the loaders: what loading each named artifact
file yields. -/
structure World (α : Type) where
  loadScalerFile : String → LoadResult (Scaler α)
  loadGMMFile : String → LoadResult (GMMModel α)
  loadDLFile : String → LoadResult (DLModel α)

/-- Instance state of the `GMM` class.  `scaler := none` models the
`self.scaler` attribute not existing (the constructor never assigns it;
reading it then raises `AttributeError`). -/
structure GMMState (α : Type) where
  threshold : Option α
  model : Option (GMMModel α)
  model_name : String
  scaler_name : String
  scaler : Option (Scaler α)

/-- Instance state of the `DeepLearning` class (same shape, Keras model). -/
structure DLState (α : Type) where
  threshold : Option α
  model : Option (DLModel α)
  model_name : String
  scaler_name : String
  scaler : Option (Scaler α)

/-- One printed line.  Verdict lines are kept structured (the data point,
index and label the f-string interpolates) instead of formatting floats. -/
inductive Out (α : Type) where
  | msg (line : String)
  | gmmVerdict (point : List α) (index : ℕ) (label : String)
  | dlVerdict (index : ℕ) (label : String)
  deriving DecidableEq

/-- `GMM.__init__` (source lines 53–57): threshold and model start as
`None`, artifact names are chosen by dataset name with every name other
than `"location"` falling through to the `"velocity"` files; `self.scaler`
is never assigned. -/
def GMM.init (α : Type) (dataset_name : String) : GMMState α :=
  { threshold := none
    model := none
    model_name := if dataset_name = "location" then "GMM_location.pkl" else "GMM_velocity.pkl"
    scaler_name := if dataset_name = "location" then "location_scaler.pkl" else "velocity_scaler.pkl"
    scaler := none }

/-- `DeepLearning.__init__` (source lines 184–188). -/
def DeepLearning.init (α : Type) (dataset_name : String) : DLState α :=
  { threshold := none
    model := none
    model_name := if dataset_name = "location" then "DL_location_model.h5" else "DL_velocity_model.h5"
    scaler_name := if dataset_name = "location" then "location_scaler.pkl" else "velocity_scaler.pkl"
    scaler := none }

/-- `GMM.load_scaler` (source lines 59–69): try `joblib.load`; on success
store the scaler and report, on `FileNotFoundError` or any other exception
print a diagnostic and leave the state unchanged.  Never raises. -/
def GMM.load_scaler {α : Type} (s : GMMState α) (w : World α) :
    GMMState α × List (Out α) :=
  match w.loadScalerFile s.scaler_name with
  | .ok sc => ({ s with scaler := some sc }, [.msg "Scaler loaded successfully."])
  | .notFound => (s, [.msg "Scaler file not found."])
  | .err e => (s, [.msg ("An error occurred while loading the scaler: " ++ e)])

/-- `DeepLearning.load_scaler` (source lines 190–200): same code as
`GMM.load_scaler`. -/
def DeepLearning.load_scaler {α : Type} (s : DLState α) (w : World α) :
    DLState α × List (Out α) :=
  match w.loadScalerFile s.scaler_name with
  | .ok sc => ({ s with scaler := some sc }, [.msg "Scaler loaded successfully."])
  | .notFound => (s, [.msg "Scaler file not found."])
  | .err e => (s, [.msg ("An error occurred while loading the scaler: " ++ e)])

/-- `GMM.load_model` (source lines 135–146): try `joblib.load`; failures
are caught and logged, the `model` field is left unchanged.  Never raises. -/
def GMM.load_model {α : Type} (s : GMMState α) (w : World α) :
    GMMState α × List (Out α) :=
  match w.loadGMMFile s.model_name with
  | .ok m => ({ s with model := some m }, [.msg "GMM model loaded successfully."])
  | .notFound => (s, [.msg "GMM model file not found."])
  | .err e => (s, [.msg ("An error occurred while loading the GMM model: " ++ e)])

/-- `DeepLearning.load_model` (source lines 286–299): try
`keras.models.load_model`; failures are caught and logged, the `model`
field is left unchanged.  Never raises. -/
def DeepLearning.load_model {α : Type} (s : DLState α) (w : World α) :
    DLState α × List (Out α) :=
  match w.loadDLFile s.model_name with
  | .ok m => ({ s with model := some m }, [.msg "Deep Learning model loaded successfully."])
  | .notFound => (s, [.msg "Deep Learning model file not found."])
  | .err e => (s, [.msg ("An error occurred while loading the Deep Learning model: " ++ e)])

/-- The file write performed by `save_model`: only the model artifact,
keyed by `model_name`, is written (the threshold is not persisted). -/
structure SaveReq where
  filename : String
  deriving DecidableEq

/-- `GMM.save_model` (source lines 71–82): `joblib.dump(self.model, model_name)`.
Dumping succeeds even if `model` is `None`; the instance state is untouched. -/
def GMM.save_model {α : Type} (s : GMMState α) : GMMState α × SaveReq :=
  (s, ⟨s.model_name⟩)

/-- `DeepLearning.save_model` (source lines 202–213): `self.model.save(...)`;
raises `AttributeError` if `model` is `None`, otherwise writes the model
file and leaves the instance state untouched. -/
def DeepLearning.save_model {α : Type} (s : DLState α) :
    Except PyError (DLState α × SaveReq) :=
  match s.model with
  | none => .error (.attributeError "save")
  | some _ => .ok (s, ⟨s.model_name⟩)

/-- `np.mean` over a 1-d array. -/
def npMean {α : Type} [LinearOrderedField α] (xs : List α) : α :=
  xs.sum / (xs.length : α)

/-- `tf.keras.losses.mae(X, R)`: reduces the last axis, giving the mean
absolute difference of each row pair. -/
def tfMAE {α : Type} [LinearOrderedField α] (X R : List (List α)) : List α :=
  List.zipWith (fun x r => npMean (List.zipWith (fun a b => |a - b|) x r)) X R

/-- `tf.keras.losses.mean_squared_error(X, R)`: reduces the last axis,
giving the mean squared difference of each row pair. -/
def tfMSE {α : Type} [LinearOrderedField α] (X R : List (List α)) : List α :=
  List.zipWith (fun x r => npMean (List.zipWith (fun a b => (a - b) ^ 2) x r)) X R

/-- The Python-3 comparison `score > self.threshold` where `threshold` may be
`None`: against a number it is the ordinary strict comparison; against `None`
an ordering comparison of a float raises `TypeError` (there is no silent
branch for `None`). -/
def pyGtNone {α : Type} [LinearOrderedField α] (x : α) (t : Option α) :
    Except PyError Bool :=
  match t with
  | some v => .ok (if v < x then true else false)
  | none => .error (.typeError "unsupported comparison of float and NoneType")

/-- The verdict loop of `GMM.detect_anomalies` (source lines 174–178) over
the enumerated scores: each sample prints its (normalized) data point, its
index and `"Normal"` when `score > threshold`, else `"Abnormal !!!"`.
Output is the lines printed before any raised comparison error, paired with
that error if one occurred. -/
def GMM.classifyFrom {α : Type} [LinearOrderedField α] (t : Option α)
    (Xn : List (List α)) : List (ℕ × α) → List (Out α) × Option PyError
  | [] => ([], none)
  | (index, score) :: rest =>
    match pyGtNone score t with
    | .error e => ([], some e)
    | .ok b =>
      let line := Out.gmmVerdict (Xn.getD index []) index
        (if b then "Normal" else "Abnormal !!!")
      let tail := GMM.classifyFrom t Xn rest
      (line :: tail.1, tail.2)

/-- The verdict loop of `DeepLearning.detect_anomalies` (source lines
326–330): each sample prints its index and `"Abnormal"` when
`error > threshold`, else `"Normal"`. -/
def DeepLearning.classifyFrom {α : Type} [LinearOrderedField α] (t : Option α) :
    List (ℕ × α) → List (Out α) × Option PyError
  | [] => ([], none)
  | (index, error) :: rest =>
    match pyGtNone error t with
    | .error e => ([], some e)
    | .ok b =>
      let line := Out.dlVerdict (α := α) index (if b then "Abnormal" else "Normal")
      let tail := DeepLearning.classifyFrom t rest
      (line :: tail.1, tail.2)

/-- The preparation phase of `GMM.detect_anomalies` (source lines 158–168):
load the scaler, normalize the batch with `scaler.fit_transform`
(re-fitting on the batch), and lazily load the model when it is `None`.
Reading `self.scaler` when the attribute was never set raises
`AttributeError`. -/
def GMM.detectPrepare {α : Type} [LinearOrderedField α] (s : GMMState α)
    (w : World α) (X : List (List α)) :
    List (Out α) × Except PyError (GMMState α × List (List α)) :=
  let r1 := GMM.load_scaler s w
  match r1.1.scaler with
  | none => (r1.2, .error (.attributeError "scaler"))
  | some sc =>
    let Xn := Scaler.fit_transform sc X
    match r1.1.model with
    | some _ => (r1.2, .ok (r1.1, Xn))
    | none =>
      let r2 := GMM.load_model r1.1 w
      (r1.2 ++ Out.msg "Model not trained. Trying to load the model..." :: r2.2,
        .ok (r2.1, Xn))

/-- `GMM.detect_anomalies` (source lines 148–178): prepare, score the
normalized batch with `model.score_samples` (raising `AttributeError` when
the model is still `None`), then run the verdict loop. -/
def GMM.detect_anomalies {α : Type} [LinearOrderedField α] (s : GMMState α)
    (w : World α) (X : List (List α)) :
    List (Out α) × Except PyError (GMMState α) :=
  match GMM.detectPrepare s w X with
  | (o, .error e) => (o, .error e)
  | (o, .ok (s2, Xn)) =>
    match s2.model with
    | none => (o, .error (.attributeError "score_samples"))
    | some m =>
      let scores := m.score_samples Xn
      let v := GMM.classifyFrom s2.threshold Xn scores.enum
      match v.2 with
      | some e => (o ++ v.1, .error e)
      | none => (o ++ v.1, .ok s2)

/-- The preparation phase of `DeepLearning.detect_anomalies` (source lines
311–321): identical control flow to the GMM case. -/
def DeepLearning.detectPrepare {α : Type} [LinearOrderedField α] (s : DLState α)
    (w : World α) (X : List (List α)) :
    List (Out α) × Except PyError (DLState α × List (List α)) :=
  let r1 := DeepLearning.load_scaler s w
  match r1.1.scaler with
  | none => (r1.2, .error (.attributeError "scaler"))
  | some sc =>
    let Xn := Scaler.fit_transform sc X
    match r1.1.model with
    | some _ => (r1.2, .ok (r1.1, Xn))
    | none =>
      let r2 := DeepLearning.load_model r1.1 w
      (r1.2 ++ Out.msg "Model not trained. Trying to load the model..." :: r2.2,
        .ok (r2.1, Xn))

/-- `DeepLearning.detect_anomalies` (source lines 301–330): prepare,
reconstruct with `model.predict`, take the per-sample mean **squared**
error of the normalized batch against its reconstruction, then run the
verdict loop. -/
def DeepLearning.detect_anomalies {α : Type} [LinearOrderedField α]
    (s : DLState α) (w : World α) (X : List (List α)) :
    List (Out α) × Except PyError (DLState α) :=
  match DeepLearning.detectPrepare s w X with
  | (o, .error e) => (o, .error e)
  | (o, .ok (s2, Xn)) =>
    match s2.model with
    | none => (o, .error (.attributeError "predict"))
    | some m =>
      let reconstructions := m.predict Xn
      let errors := tfMSE Xn reconstructions
      let v := DeepLearning.classifyFrom s2.threshold errors.enum
      match v.2 with
      | some e => (o ++ v.1, .error e)
      | none => (o ++ v.1, .ok s2)

/-- The detector a factory call hands back: one of the two strategies. -/
inductive Detector (α : Type) where
  | gmm (s : GMMState α)
  | deepLearning (s : DLState α)

/-- `AnomalyDetectorFactory.anomaly_detector` (source lines 344–367):
`"classic"` builds a fresh `GMM`, `"deep_learning"` a fresh `DeepLearning`,
anything else raises `ValueError`. -/
def AnomalyDetectorFactory.anomaly_detector (α : Type)
    (detector_type dataset_name : String) : Except PyError (Detector α) :=
  if detector_type = "classic" then .ok (.gmm (GMM.init α dataset_name))
  else if detector_type = "deep_learning" then
    .ok (.deepLearning (DeepLearning.init α dataset_name))
  else .error (.valueError ("Invalid anomaly detector type: " ++ detector_type))

/-- `np.std` over a 1-d array: the square root of the mean of the squared
absolute deviations from the mean (numpy default, population convention). -/
noncomputable def npStd (xs : List ℝ) : ℝ :=
  Real.sqrt (npMean (xs.map fun x => |x - npMean xs| ^ 2))

/-- `GMM.determine_threshold` (source lines 84–99): score the training data
with `model.score_samples` and store `np.mean(scores) + np.std(scores)` as
the threshold (raising `AttributeError` when `model` is `None`). -/
noncomputable def GMM.determine_threshold (s : GMMState ℝ)
    (X_train : List (List ℝ)) : Except PyError (GMMState ℝ) :=
  match s.model with
  | none => .error (.attributeError "score_samples")
  | some m =>
    let scores := m.score_samples X_train
    .ok { s with threshold := some (npMean scores + npStd scores) }

/-- `DeepLearning.determine_threshold` (source lines 215–232): reconstruct
the training data with `model.predict`, take the per-sample mean
**absolute** error (`tf.keras.losses.mae`), and store
`np.mean(errors) + np.std(errors)` as the threshold. -/
noncomputable def DeepLearning.determine_threshold (s : DLState ℝ)
    (X_train : List (List ℝ)) : Except PyError (DLState ℝ) :=
  match s.model with
  | none => .error (.attributeError "predict")
  | some m =>
    let reconstructions := m.predict X_train
    let errors := tfMAE X_train reconstructions
    .ok { s with threshold := some (npMean errors + npStd errors) }

/-- Written from the spec's words, for comparison: the arithmetic mean of a
sample. -/
noncomputable def specMean (xs : List ℝ) : ℝ :=
  xs.sum / (xs.length : ℝ)

/-- Written from the spec's words, for comparison: the (population)
standard deviation of a sample — the square root of the average squared
deviation from the mean. -/
noncomputable def specStddev (xs : List ℝ) : ℝ :=
  Real.sqrt ((xs.map fun x => (x - specMean xs) ^ 2).sum / (xs.length : ℝ))

/-! ### Concrete fixtures used by witnesses and counterexamples -/

/-- A loadable scaler whose transform ignores its parameters. -/
def qIdScaler : Scaler ℚ := ⟨[], fun _ => [], fun _ X => X⟩

/-- A concrete mixture model scoring every sample as 3. -/
def qConstGMM : GMMModel ℚ := ⟨fun X => X.map fun _ => 3, fun X => by simp⟩

/-- A concrete Keras model reconstructing every sample as `[0]`. -/
def qConstDL : DLModel ℚ := ⟨fun X => X.map fun _ => [0], fun X => by simp⟩

/-- A world in which every artifact file loads successfully. -/
def qWorld : World ℚ :=
  ⟨fun _ => .ok qIdScaler, fun _ => .ok qConstGMM, fun _ => .ok qConstDL⟩

/-- A world in which no artifact file exists. -/
def qWorldMissing : World ℚ :=
  ⟨fun _ => .notFound, fun _ => .notFound, fun _ => .notFound⟩

/-! ### Helper lemmas -/

/-- With a non-`None` threshold the GMM verdict loop never raises and maps
each enumerated score to its verdict line. -/
lemma gmm_classifyFrom_some {α : Type} [LinearOrderedField α] (t : α)
    (Xn : List (List α)) (ps : List (ℕ × α)) :
    GMM.classifyFrom (some t) Xn ps =
      (ps.map fun p => Out.gmmVerdict (Xn.getD p.1 []) p.1
        (if t < p.2 then "Normal" else "Abnormal !!!"), none) := by
  induction ps with
  | nil => rfl
  | cons p rest ih =>
    obtain ⟨index, score⟩ := p
    simp only [GMM.classifyFrom, pyGtNone, ih, List.map_cons]
    split <;> simp_all

/-- With a non-`None` threshold the DeepLearning verdict loop never raises
and maps each enumerated error to its verdict line. -/
lemma dl_classifyFrom_some {α : Type} [LinearOrderedField α] (t : α)
    (ps : List (ℕ × α)) :
    DeepLearning.classifyFrom (α := α) (some t) ps =
      (ps.map fun p => Out.dlVerdict p.1 (if t < p.2 then "Abnormal" else "Normal"), none) := by
  induction ps with
  | nil => rfl
  | cons p rest ih =>
    obtain ⟨index, error⟩ := p
    simp only [DeepLearning.classifyFrom, pyGtNone, ih, List.map_cons]
    split <;> simp_all

/-- **C1.** For every score/error array and every fixed non-`None`
threshold, the per-sample classification printed by `detect_anomalies`
follows the strategy rule: under GMM exactly the samples with
`score > threshold` are labeled `"Normal"` (all others `"Abnormal !!!"`),
and under DeepLearning exactly the samples with `error > threshold` are
labeled `"Abnormal"` (all others `"Normal"`) — the comparison direction is
inverted between the strategies. -/
theorem detect_classification_rule (t : ℚ) (Xn : List (List ℚ))
    (scores errors : List ℚ) (i : ℕ)
    (hs : i < scores.length) (he : i < errors.length) :
    (GMM.classifyFrom (some t) Xn scores.enum).2 = none ∧
    (DeepLearning.classifyFrom (some t) errors.enum).2 = none ∧
    (GMM.classifyFrom (some t) Xn scores.enum).1.length = scores.length ∧
    (DeepLearning.classifyFrom (some t) errors.enum).1.length = errors.length ∧
    ((GMM.classifyFrom (some t) Xn scores.enum).1[i]? =
        some (.gmmVerdict (Xn.getD i []) i "Normal") ↔ scores[i] > t) ∧
    ((GMM.classifyFrom (some t) Xn scores.enum).1[i]? =
        some (.gmmVerdict (Xn.getD i []) i "Abnormal !!!") ↔ ¬ scores[i] > t) ∧
    ((DeepLearning.classifyFrom (some t) errors.enum).1[i]? =
        some (.dlVerdict i "Abnormal") ↔ errors[i] > t) ∧
    ((DeepLearning.classifyFrom (some t) errors.enum).1[i]? =
        some (.dlVerdict i "Normal") ↔ ¬ errors[i] > t) := by
  rw [gmm_classifyFrom_some, dl_classifyFrom_some]
  refine ⟨rfl, rfl, by simp, by simp, ?_, ?_, ?_, ?_⟩ <;>
    simp only [List.getElem?_map, List.getElem?_enum,
      List.getElem?_eq_getElem hs, List.getElem?_eq_getElem he, Option.map_some] <;>
    by_cases h : t < scores[i] <;> by_cases h2 : t < errors[i] <;>
    simp [h, h2, gt_iff_lt]

/-- Witness for `detect_classification_rule` at concrete inputs. -/
theorem detect_classification_rule_witness :
    (0 : ℕ) < [(3 : ℚ), 1].length ∧ (0 : ℕ) < [(5 : ℚ)].length ∧
    (((GMM.classifyFrom (some 2) [[1]] [(3 : ℚ), 1].enum).1[0]? =
        some (.gmmVerdict ([[(1 : ℚ)]].getD 0 []) 0 "Normal") ↔ (3 : ℚ) > 2)) :=
  ⟨by decide, by decide,
    (detect_classification_rule 2 [[1]] [3, 1] [5] 0 (by decide) (by decide)).2.2.2.2.1⟩

/-- A world in which every artifact file exists but is corrupt. -/
def qWorldCorrupt : World ℚ :=
  ⟨fun _ => .err "corrupt", fun _ => .err "corrupt", fun _ => .err "corrupt"⟩

/-- `np.mean` agrees with the spec's arithmetic mean. -/
lemma npMean_eq_specMean (xs : List ℝ) : npMean xs = specMean xs := rfl

/-- `np.std` agrees with the spec's population standard deviation. -/
lemma npStd_eq_specStddev (xs : List ℝ) : npStd xs = specStddev xs := by
  have h : (xs.map fun x => |x - npMean xs| ^ 2) = xs.map fun x => (x - specMean xs) ^ 2 := by
    refine List.map_congr_left ?_
    intro x _
    rw [sq_abs, npMean_eq_specMean]
  unfold npStd specStddev
  rw [h]
  unfold npMean
  rw [List.length_map]

/-- **C2.** For both strategies, after `determine_threshold(X_train)` runs,
the stored threshold equals `mean(statistic) + stddev(statistic)` over the
per-sample training statistic array — the log-likelihoods
(`model.score_samples`) for GMM, the mean absolute reconstruction errors
for DeepLearning. -/
theorem determine_threshold_mean_plus_std (sg : GMMState ℝ) (mg : GMMModel ℝ)
    (Xg : List (List ℝ)) (hg : sg.model = some mg)
    (sd : DLState ℝ) (md : DLModel ℝ) (Xd : List (List ℝ)) (hd : sd.model = some md) :
    GMM.determine_threshold sg Xg =
      .ok { sg with
        threshold := some (specMean (mg.score_samples Xg) + specStddev (mg.score_samples Xg)) } ∧
    DeepLearning.determine_threshold sd Xd =
      .ok { sd with
        threshold := some (specMean (tfMAE Xd (md.predict Xd)) + specStddev (tfMAE Xd (md.predict Xd))) } := by
  constructor
  · simp only [GMM.determine_threshold, hg]
    rw [npMean_eq_specMean, npStd_eq_specStddev]
  · simp only [DeepLearning.determine_threshold, hd]
    rw [npMean_eq_specMean, npStd_eq_specStddev]

/-- A concrete real-valued mixture model. -/
noncomputable def rConstGMM : GMMModel ℝ := ⟨fun X => X.map fun _ => 0, fun _ => by simp⟩

/-- A concrete real-valued Keras model reconstructing its input exactly. -/
noncomputable def rIdDL : DLModel ℝ := ⟨fun X => X, fun _ => rfl⟩

/-- A concrete real-valued GMM instance state with a model attached. -/
noncomputable def rGMMState : GMMState ℝ := ⟨none, some rConstGMM, "m", "s", none⟩

/-- A concrete real-valued DeepLearning instance state with a model attached. -/
noncomputable def rDLState : DLState ℝ := ⟨none, some rIdDL, "m", "s", none⟩

/-- Witness for `determine_threshold_mean_plus_std` at concrete states. -/
theorem determine_threshold_mean_plus_std_witness :
    GMM.determine_threshold rGMMState [] =
      .ok { rGMMState with
        threshold := some (specMean (rConstGMM.score_samples []) + specStddev (rConstGMM.score_samples [])) } ∧
    DeepLearning.determine_threshold rDLState [] =
      .ok { rDLState with
        threshold := some (specMean (tfMAE [] (rIdDL.predict [])) + specStddev (tfMAE [] (rIdDL.predict []))) } :=
  determine_threshold_mean_plus_std rGMMState rConstGMM [] rfl rDLState rIdDL [] rfl

/-- Counterexample to **C3** as stated: the factory `ValueError` is *not*
the only raised, non-recovered error path in the core.  With the scaler
file absent, `GMM.detect_anomalies` raises an uncaught `AttributeError`
(the load failure itself is caught, but `self.scaler` was never set). -/
theorem factory_only_error_path_cex :
    (GMM.detect_anomalies (GMM.init ℚ "velocity") qWorldMissing [[1]]).2 =
      .error (.attributeError "scaler") := rfl

/-- **C3** (amended). The factory returns a fresh `GMM` instance for tag
`"classic"`, a fresh `DeepLearning` instance for tag `"deep_learning"`, and
for every other tag raises `ValueError` and constructs nothing.  (It is
*not*, however, the only raised non-recovered error path in the core:
`detect_anomalies` can raise an uncaught `AttributeError`.) -/
theorem factory_dispatch (α : Type) (n t : String)
    (h1 : t ≠ "classic") (h2 : t ≠ "deep_learning") :
    AnomalyDetectorFactory.anomaly_detector α "classic" n = .ok (.gmm (GMM.init α n)) ∧
    AnomalyDetectorFactory.anomaly_detector α "deep_learning" n =
      .ok (.deepLearning (DeepLearning.init α n)) ∧
    AnomalyDetectorFactory.anomaly_detector α t n =
      .error (.valueError ("Invalid anomaly detector type: " ++ t)) := by
  refine ⟨rfl, rfl, ?_⟩
  unfold AnomalyDetectorFactory.anomaly_detector
  rw [if_neg h1, if_neg h2]

/-- Witness for `factory_dispatch` at concrete tags. -/
theorem factory_dispatch_witness :
    AnomalyDetectorFactory.anomaly_detector ℚ "classic" "velocity" =
      .ok (.gmm (GMM.init ℚ "velocity")) ∧
    AnomalyDetectorFactory.anomaly_detector ℚ "deep_learning" "velocity" =
      .ok (.deepLearning (DeepLearning.init ℚ "velocity")) ∧
    AnomalyDetectorFactory.anomaly_detector ℚ "quantum" "velocity" =
      .error (.valueError ("Invalid anomaly detector type: " ++ "quantum")) :=
  factory_dispatch ℚ "velocity" "quantum" (by decide) (by decide)

/-- **C4.** Construction selects artifact filenames per the table in §6:
identity `"location"` yields `location_scaler.pkl` with `GMM_location.pkl`
or `DL_location_model.h5`; every other identity (including `"velocity"`)
routes through the `"velocity"` filenames as a silent default, not an
error (the constructors are total and emit nothing). -/
theorem constructor_filenames (α : Type) (n : String) :
    (n = "location" →
      (GMM.init α n).model_name = "GMM_location.pkl" ∧
      (GMM.init α n).scaler_name = "location_scaler.pkl" ∧
      (DeepLearning.init α n).model_name = "DL_location_model.h5" ∧
      (DeepLearning.init α n).scaler_name = "location_scaler.pkl") ∧
    (n ≠ "location" →
      (GMM.init α n).model_name = "GMM_velocity.pkl" ∧
      (GMM.init α n).scaler_name = "velocity_scaler.pkl" ∧
      (DeepLearning.init α n).model_name = "DL_velocity_model.h5" ∧
      (DeepLearning.init α n).scaler_name = "velocity_scaler.pkl") := by
  constructor <;> intro h <;> simp [GMM.init, DeepLearning.init, h]

/-- Witness for `constructor_filenames` at `"location"` and `"velocity"`. -/
theorem constructor_filenames_witness :
    ((GMM.init ℚ "location").model_name = "GMM_location.pkl" ∧
      (GMM.init ℚ "location").scaler_name = "location_scaler.pkl" ∧
      (DeepLearning.init ℚ "location").model_name = "DL_location_model.h5" ∧
      (DeepLearning.init ℚ "location").scaler_name = "location_scaler.pkl") ∧
    ((GMM.init ℚ "velocity").model_name = "GMM_velocity.pkl" ∧
      (GMM.init ℚ "velocity").scaler_name = "velocity_scaler.pkl" ∧
      (DeepLearning.init ℚ "velocity").model_name = "DL_velocity_model.h5" ∧
      (DeepLearning.init ℚ "velocity").scaler_name = "velocity_scaler.pkl") :=
  ⟨(constructor_filenames ℚ "location").1 rfl,
   (constructor_filenames ℚ "velocity").2 (by decide)⟩

/-- **C5.** For both strategies, a scaler or model load failure (file
absent or corrupt) in `load_scaler` / `load_model` never propagates an
exception to the caller: the failure is caught, a diagnostic line is
printed, the state (in particular the corresponding field) is left exactly
as it was, and execution continues. -/
theorem load_failures_caught (α : Type) (s : GMMState α) (d : DLState α)
    (w : World α) (e : String) :
    (w.loadScalerFile s.scaler_name = .notFound →
      GMM.load_scaler s w = (s, [.msg "Scaler file not found."])) ∧
    (w.loadScalerFile s.scaler_name = .err e →
      GMM.load_scaler s w =
        (s, [.msg ("An error occurred while loading the scaler: " ++ e)])) ∧
    (w.loadScalerFile d.scaler_name = .notFound →
      DeepLearning.load_scaler d w = (d, [.msg "Scaler file not found."])) ∧
    (w.loadScalerFile d.scaler_name = .err e →
      DeepLearning.load_scaler d w =
        (d, [.msg ("An error occurred while loading the scaler: " ++ e)])) ∧
    (w.loadGMMFile s.model_name = .notFound →
      GMM.load_model s w = (s, [.msg "GMM model file not found."])) ∧
    (w.loadGMMFile s.model_name = .err e →
      GMM.load_model s w =
        (s, [.msg ("An error occurred while loading the GMM model: " ++ e)])) ∧
    (w.loadDLFile d.model_name = .notFound →
      DeepLearning.load_model d w = (d, [.msg "Deep Learning model file not found."])) ∧
    (w.loadDLFile d.model_name = .err e →
      DeepLearning.load_model d w =
        (d, [.msg ("An error occurred while loading the Deep Learning model: " ++ e)])) := by
  refine ⟨?_, ?_, ?_, ?_, ?_, ?_, ?_, ?_⟩ <;> intro h <;>
    simp [GMM.load_scaler, DeepLearning.load_scaler, GMM.load_model,
      DeepLearning.load_model, h]

/-- Witness for `load_failures_caught`: missing and corrupt files on fresh
instances. -/
theorem load_failures_caught_witness :
    (GMM.load_scaler (GMM.init ℚ "velocity") qWorldMissing =
      (GMM.init ℚ "velocity", [.msg "Scaler file not found."])) ∧
    (GMM.load_scaler (GMM.init ℚ "velocity") qWorldCorrupt =
      (GMM.init ℚ "velocity",
        [.msg ("An error occurred while loading the scaler: " ++ "corrupt")])) ∧
    (DeepLearning.load_model (DeepLearning.init ℚ "velocity") qWorldMissing =
      (DeepLearning.init ℚ "velocity", [.msg "Deep Learning model file not found."])) ∧
    (DeepLearning.load_model (DeepLearning.init ℚ "velocity") qWorldCorrupt =
      (DeepLearning.init ℚ "velocity",
        [.msg ("An error occurred while loading the Deep Learning model: " ++ "corrupt")])) :=
  ⟨(load_failures_caught ℚ (GMM.init ℚ "velocity") (DeepLearning.init ℚ "velocity")
      qWorldMissing "corrupt").1 rfl,
   (load_failures_caught ℚ (GMM.init ℚ "velocity") (DeepLearning.init ℚ "velocity")
      qWorldCorrupt "corrupt").2.1 rfl,
   (load_failures_caught ℚ (GMM.init ℚ "velocity") (DeepLearning.init ℚ "velocity")
      qWorldMissing "corrupt").2.2.2.2.2.2.1 rfl,
   (load_failures_caught ℚ (GMM.init ℚ "velocity") (DeepLearning.init ℚ "velocity")
      qWorldCorrupt "corrupt").2.2.2.2.2.2.2 rfl⟩

/-- A scaler whose re-fitted transform differs observably from its
persisted one: fitting on a batch stores its first row, and transforming
with empty parameters drops everything. -/
def qRefitScaler : Scaler ℚ :=
  ⟨[], fun X => X.headD [], fun p X => if p.isEmpty then [] else X⟩

/-- **C6.** In both strategies `detect_anomalies` fits the scaler on the
incoming inference batch (`fit_transform`) rather than only applying the
previously persisted fitted transform: everything the call prints is
independent of the persisted fitted parameters (two loaded scalers that
differ only in `params` produce identical output), while `fit_transform`
itself can differ from the persisted `transform`. -/
theorem detect_refits_scaler (s : GMMState ℚ) (d : DLState ℚ)
    (w₁ w₂ : World ℚ) (p p' : List ℚ)
    (f : List (List ℚ) → List ℚ)
    (tr : List ℚ → List (List ℚ) → List (List ℚ)) (X : List (List ℚ))
    (hg1 : w₁.loadScalerFile s.scaler_name = .ok ⟨p, f, tr⟩)
    (hg2 : w₂.loadScalerFile s.scaler_name = .ok ⟨p', f, tr⟩)
    (hgm : w₁.loadGMMFile = w₂.loadGMMFile)
    (hd1 : w₁.loadScalerFile d.scaler_name = .ok ⟨p, f, tr⟩)
    (hd2 : w₂.loadScalerFile d.scaler_name = .ok ⟨p', f, tr⟩)
    (hdm : w₁.loadDLFile = w₂.loadDLFile) :
    (GMM.detect_anomalies s w₁ X).1 = (GMM.detect_anomalies s w₂ X).1 ∧
    (DeepLearning.detect_anomalies d w₁ X).1 = (DeepLearning.detect_anomalies d w₂ X).1 ∧
    Scaler.fit_transform qRefitScaler [[1]] = [[1]] ∧
    Scaler.transform qRefitScaler [[1]] = [] := by
  refine ⟨?_, ?_, rfl, rfl⟩
  · cases hm : s.model <;>
      cases hres : w₂.loadGMMFile s.model_name <;>
        simp [GMM.detect_anomalies, GMM.detectPrepare, GMM.load_scaler, GMM.load_model,
          Scaler.fit_transform, hg1, hg2, hgm, hm, hres] <;>
        (try (split <;> rfl))
  · cases hm : d.model <;>
      cases hres : w₂.loadDLFile d.model_name <;>
        simp [DeepLearning.detect_anomalies, DeepLearning.detectPrepare,
          DeepLearning.load_scaler, DeepLearning.load_model,
          Scaler.fit_transform, hd1, hd2, hdm, hm, hres] <;>
        (try (split <;> rfl))

/-- Witness for `detect_refits_scaler`: two worlds whose persisted scaler
parameters differ. -/
theorem detect_refits_scaler_witness :
    (GMM.detect_anomalies (GMM.init ℚ "velocity")
        ⟨fun _ => .ok ⟨[7], fun _ => [], fun _ X => X⟩, fun _ => .ok qConstGMM,
          fun _ => .ok qConstDL⟩ [[1]]).1 =
      (GMM.detect_anomalies (GMM.init ℚ "velocity")
        ⟨fun _ => .ok ⟨[8], fun _ => [], fun _ X => X⟩, fun _ => .ok qConstGMM,
          fun _ => .ok qConstDL⟩ [[1]]).1 ∧
    (DeepLearning.detect_anomalies (DeepLearning.init ℚ "velocity")
        ⟨fun _ => .ok ⟨[7], fun _ => [], fun _ X => X⟩, fun _ => .ok qConstGMM,
          fun _ => .ok qConstDL⟩ [[1]]).1 =
      (DeepLearning.detect_anomalies (DeepLearning.init ℚ "velocity")
        ⟨fun _ => .ok ⟨[8], fun _ => [], fun _ X => X⟩, fun _ => .ok qConstGMM,
          fun _ => .ok qConstDL⟩ [[1]]).1 ∧
    Scaler.fit_transform qRefitScaler [[1]] = [[1]] ∧
    Scaler.transform qRefitScaler [[1]] = [] :=
  detect_refits_scaler (GMM.init ℚ "velocity") (DeepLearning.init ℚ "velocity")
    ⟨fun _ => .ok ⟨[7], fun _ => [], fun _ X => X⟩, fun _ => .ok qConstGMM,
      fun _ => .ok qConstDL⟩
    ⟨fun _ => .ok ⟨[8], fun _ => [], fun _ X => X⟩, fun _ => .ok qConstGMM,
      fun _ => .ok qConstDL⟩
    [7] [8] (fun _ => []) (fun _ X => X) [[1]] rfl rfl rfl rfl rfl rfl

/-- A DeepLearning instance state with threshold and model present. -/
def qDLReady : DLState ℚ := ⟨some 1, some qConstDL, "m", "s", none⟩

/-- **C7.** In the DeepLearning strategy the statistic fed into the
threshold formula by `determine_threshold` is the per-sample mean
*absolute* reconstruction error (`tf.keras.losses.mae`), while the
statistic `detect_anomalies` compares against that threshold is the
per-sample mean *squared* error (`tf.keras.losses.mean_squared_error`) —
and the two metrics genuinely differ. -/
theorem dl_metric_mismatch (sd : DLState ℝ) (md : DLModel ℝ)
    (Xd : List (List ℝ)) (hd : sd.model = some md)
    (s : DLState ℚ) (w : World ℚ) (sc : Scaler ℚ) (m : DLModel ℚ)
    (X : List (List ℚ))
    (h1 : w.loadScalerFile s.scaler_name = .ok sc)
    (hm : s.model = some m) :
    DeepLearning.determine_threshold sd Xd =
      .ok { sd with
        threshold := some (npMean (tfMAE Xd (md.predict Xd)) + npStd (tfMAE Xd (md.predict Xd))) } ∧
    (DeepLearning.detect_anomalies s w X).1 =
      Out.msg "Scaler loaded successfully." ::
        (DeepLearning.classifyFrom s.threshold
          (tfMSE (Scaler.fit_transform sc X) (m.predict (Scaler.fit_transform sc X))).enum).1 ∧
    tfMAE ([[1, 3]] : List (List ℚ)) [[0, 1]] ≠ tfMSE ([[1, 3]] : List (List ℚ)) [[0, 1]] := by
  refine ⟨?_, ?_, ?_⟩
  · simp only [DeepLearning.determine_threshold, hd]
  · simp [DeepLearning.detect_anomalies, DeepLearning.detectPrepare,
      DeepLearning.load_scaler, h1, hm]
    try (split <;> rfl)
  · simp only [tfMAE, tfMSE, npMean, ne_eq, List.zipWith_cons_cons, List.zipWith_nil_right,
      List.cons.injEq, and_true]
    norm_num

/-- Witness for `dl_metric_mismatch` at concrete states. -/
theorem dl_metric_mismatch_witness :
    (DeepLearning.determine_threshold rDLState [] =
      .ok { rDLState with
        threshold := some (npMean (tfMAE [] (rIdDL.predict [])) + npStd (tfMAE [] (rIdDL.predict []))) }) ∧
    ((DeepLearning.detect_anomalies qDLReady qWorld [[1]]).1 =
      Out.msg "Scaler loaded successfully." ::
        (DeepLearning.classifyFrom qDLReady.threshold
          (tfMSE (Scaler.fit_transform qIdScaler [[1]])
            (qConstDL.predict (Scaler.fit_transform qIdScaler [[1]]))).enum).1) ∧
    tfMAE ([[1, 3]] : List (List ℚ)) [[0, 1]] ≠ tfMSE ([[1, 3]] : List (List ℚ)) [[0, 1]] :=
  dl_metric_mismatch rDLState rIdDL [] rfl qDLReady qWorld qIdScaler qConstDL [[1]] rfl rfl

/-- A GMM instance state with a model attached but the threshold still
unset (`None`). -/
def qGMMNoThr : GMMState ℚ := ⟨none, some qConstGMM, "m", "s", none⟩

/-- Counterexample to **C8** as stated: with the threshold still unset,
`GMM.detect_anomalies` does *not* classify the scored sample `"Normal"` —
the very first comparison `score > None` raises an uncaught `TypeError`
(Python 3 refuses ordering comparisons of a float against `None`), so the
run aborts having printed no verdict at all. -/
theorem threshold_none_normal_cex :
    GMM.detect_anomalies qGMMNoThr qWorld [[1]] =
      ([Out.msg "Scaler loaded successfully."],
        .error (.typeError "unsupported comparison of float and NoneType")) := rfl

/-- **C8** (amended). The threshold field is set only after
`determine_threshold` runs (both constructors leave it `None`); and if
`detect_anomalies` is invoked while the threshold is still unset, the
sample-vs-`None` comparison raises an uncaught `TypeError` at the first
scored sample under either strategy, so no sample is classified at all
(neither `"Normal"` nor `"Abnormal"`). -/
theorem threshold_none_raises (n : String) (Xn : List (List ℚ))
    (index : ℕ) (x : ℚ) (rest : List (ℕ × ℚ))
    (s : GMMState ℚ) (w : World ℚ) (X : List (List ℚ))
    (sc : Scaler ℚ) (m : GMMModel ℚ)
    (h1 : w.loadScalerFile s.scaler_name = .ok sc)
    (hm : s.model = some m)
    (ht : s.threshold = none)
    (hne : Scaler.fit_transform sc X ≠ []) :
    (GMM.init ℚ n).threshold = none ∧
    (DeepLearning.init ℚ n).threshold = none ∧
    GMM.classifyFrom (none : Option ℚ) Xn ((index, x) :: rest) =
      ([], some (.typeError "unsupported comparison of float and NoneType")) ∧
    DeepLearning.classifyFrom (none : Option ℚ) ((index, x) :: rest) =
      ([], some (.typeError "unsupported comparison of float and NoneType")) ∧
    (GMM.detect_anomalies s w X).2 =
      .error (.typeError "unsupported comparison of float and NoneType") := by
  refine ⟨rfl, rfl, rfl, rfl, ?_⟩
  have hlen := m.score_samples_length (Scaler.fit_transform sc X)
  cases hsc : m.score_samples (Scaler.fit_transform sc X) with
  | nil =>
    rw [hsc] at hlen
    exact absurd (List.length_eq_zero.mp hlen.symm) hne
  | cons a as =>
    simp [GMM.detect_anomalies, GMM.detectPrepare, GMM.load_scaler, h1, hm, ht, hsc,
      GMM.classifyFrom, pyGtNone]

/-- Witness for `threshold_none_raises` at concrete inputs. -/
theorem threshold_none_raises_witness :
    (GMM.init ℚ "velocity").threshold = none ∧
    (DeepLearning.init ℚ "velocity").threshold = none ∧
    GMM.classifyFrom (none : Option ℚ) [[1]] ((0, (5 : ℚ)) :: []) =
      ([], some (.typeError "unsupported comparison of float and NoneType")) ∧
    DeepLearning.classifyFrom (none : Option ℚ) ((0, (5 : ℚ)) :: []) =
      ([], some (.typeError "unsupported comparison of float and NoneType")) ∧
    (GMM.detect_anomalies qGMMNoThr qWorld [[1]]).2 =
      .error (.typeError "unsupported comparison of float and NoneType") :=
  threshold_none_raises "velocity" [[1]] 0 5 [] qGMMNoThr qWorld [[1]]
    qIdScaler qConstGMM rfl rfl rfl (by decide)

/-- The preparation phase of GMM detection never changes the threshold. -/
lemma gmm_detectPrepare_threshold_eq {α : Type} [LinearOrderedField α]
    (s : GMMState α) (w : World α) (X : List (List α)) :
    ((GMM.detectPrepare s w X).2).map (fun r => r.1.threshold) =
      ((GMM.detectPrepare s w X).2).map (fun _ => s.threshold) := by
  unfold GMM.detectPrepare GMM.load_scaler GMM.load_model
  cases hsc : w.loadScalerFile s.scaler_name <;>
    cases hss : s.scaler <;>
      cases hm : s.model <;>
        cases hgm : w.loadGMMFile s.model_name <;>
          simp [hsc, hss, hm, hgm, Except.map]

/-- The preparation phase of DeepLearning detection never changes the
threshold. -/
lemma dl_detectPrepare_threshold_eq {α : Type} [LinearOrderedField α]
    (d : DLState α) (w : World α) (X : List (List α)) :
    ((DeepLearning.detectPrepare d w X).2).map (fun r => r.1.threshold) =
      ((DeepLearning.detectPrepare d w X).2).map (fun _ => d.threshold) := by
  unfold DeepLearning.detectPrepare DeepLearning.load_scaler DeepLearning.load_model
  cases hsc : w.loadScalerFile d.scaler_name <;>
    cases hss : d.scaler <;>
      cases hm : d.model <;>
        cases hgm : w.loadDLFile d.model_name <;>
          simp [hsc, hss, hm, hgm, Except.map]

/-- **C9.** For both strategies the threshold field is never persisted or
restored: `save_model`, `load_model` and `load_scaler` all leave
`threshold` unchanged, so a detector instance that follows only the
inference path (construction followed by `detect_anomalies` with its lazy
`load_model`) still has `threshold = None` when it reaches the
classification loop. -/
theorem threshold_never_persisted (α : Type) [LinearOrderedField α]
    (s : GMMState α) (d : DLState α) (w : World α) (n : String)
    (X : List (List α)) (o : List (Out α)) (s' : GMMState α) (Xn : List (List α))
    (d' : DLState α) (r : SaveReq)
    (o2 : List (Out α)) (d2 : DLState α) (Xn2 : List (List α)) :
    (GMM.load_scaler s w).1.threshold = s.threshold ∧
    (GMM.load_model s w).1.threshold = s.threshold ∧
    (GMM.save_model s).1.threshold = s.threshold ∧
    (DeepLearning.load_scaler d w).1.threshold = d.threshold ∧
    (DeepLearning.load_model d w).1.threshold = d.threshold ∧
    (DeepLearning.save_model d = .ok (d', r) → d'.threshold = d.threshold) ∧
    (GMM.detectPrepare (GMM.init α n) w X = (o, .ok (s', Xn)) → s'.threshold = none) ∧
    (DeepLearning.detectPrepare (DeepLearning.init α n) w X = (o2, .ok (d2, Xn2)) →
      d2.threshold = none) := by
  refine ⟨?_, ?_, rfl, ?_, ?_, ?_, ?_, ?_⟩
  · unfold GMM.load_scaler
    cases hsc : w.loadScalerFile s.scaler_name <;> rfl
  · unfold GMM.load_model
    cases hgm : w.loadGMMFile s.model_name <;> rfl
  · unfold DeepLearning.load_scaler
    cases hsc : w.loadScalerFile d.scaler_name <;> rfl
  · unfold DeepLearning.load_model
    cases hgm : w.loadDLFile d.model_name <;> rfl
  · intro h
    unfold DeepLearning.save_model at h
    cases hm : d.model <;> rw [hm] at h
    · cases h
    · simp only [Except.ok.injEq, Prod.mk.injEq] at h
      rw [← h.1]
  · intro h
    have h2 := congrArg Prod.snd h
    have h3 := gmm_detectPrepare_threshold_eq (GMM.init α n) w X
    rw [h2] at h3
    simp only [Except.map] at h3
    simpa [GMM.init] using h3
  · intro h
    have h2 := congrArg Prod.snd h
    have h3 := dl_detectPrepare_threshold_eq (DeepLearning.init α n) w X
    rw [h2] at h3
    simp only [Except.map] at h3
    simpa [DeepLearning.init] using h3

/-- Witness for `threshold_never_persisted` on the concrete inference path. -/
theorem threshold_never_persisted_witness :
    (GMM.load_scaler (GMM.init ℚ "velocity") qWorld).1.threshold =
      (GMM.init ℚ "velocity").threshold ∧
    (GMM.load_model (GMM.init ℚ "velocity") qWorld).1.threshold =
      (GMM.init ℚ "velocity").threshold ∧
    (qDLReady.threshold = qDLReady.threshold) ∧
    ((⟨none, some qConstGMM, "GMM_velocity.pkl", "velocity_scaler.pkl",
        some qIdScaler⟩ : GMMState ℚ).threshold = none) ∧
    ((⟨none, some qConstDL, "DL_velocity_model.h5", "velocity_scaler.pkl",
        some qIdScaler⟩ : DLState ℚ).threshold = none) :=
  ⟨(threshold_never_persisted ℚ (GMM.init ℚ "velocity") qDLReady qWorld "velocity"
      [[1]] [] (GMM.init ℚ "velocity") [] qDLReady ⟨"m"⟩ [] qDLReady []).1,
   (threshold_never_persisted ℚ (GMM.init ℚ "velocity") qDLReady qWorld "velocity"
      [[1]] [] (GMM.init ℚ "velocity") [] qDLReady ⟨"m"⟩ [] qDLReady []).2.1,
   (threshold_never_persisted ℚ (GMM.init ℚ "velocity") qDLReady qWorld "velocity"
      [[1]] [] (GMM.init ℚ "velocity") [] qDLReady ⟨"m"⟩ [] qDLReady []).2.2.2.2.2.1 rfl,
   (threshold_never_persisted ℚ (GMM.init ℚ "velocity") qDLReady qWorld "velocity"
      [[1]]
      [Out.msg "Scaler loaded successfully.",
        Out.msg "Model not trained. Trying to load the model...",
        Out.msg "GMM model loaded successfully."]
      ⟨none, some qConstGMM, "GMM_velocity.pkl", "velocity_scaler.pkl", some qIdScaler⟩
      [[1]] qDLReady ⟨"m"⟩ [] qDLReady []).2.2.2.2.2.2.1 rfl,
   (threshold_never_persisted ℚ (GMM.init ℚ "velocity") qDLReady qWorld "velocity"
      [[1]] [] (GMM.init ℚ "velocity") [] qDLReady ⟨"m"⟩
      [Out.msg "Scaler loaded successfully.",
        Out.msg "Model not trained. Trying to load the model...",
        Out.msg "Deep Learning model loaded successfully."]
      ⟨none, some qConstDL, "DL_velocity_model.h5", "velocity_scaler.pkl", some qIdScaler⟩
      [[1]]).2.2.2.2.2.2.2 rfl⟩

/-- **C10.** The `scaler` attribute does not exist on a detector instance
until a `load_scaler` call succeeds (the constructors never initialize it);
consequently, if the scaler file is missing or unreadable, the transform
step right after the caught load failure raises an uncaught
`AttributeError` in `detect_anomalies` instead of continuing in the
logged, degraded state. -/
theorem missing_scaler_attribute_error (α : Type) [LinearOrderedField α]
    (s : GMMState α) (d : DLState α) (w : World α) (X : List (List α))
    (e : String) (n : String) (hs : s.scaler = none) (hd : d.scaler = none) :
    (GMM.init α n).scaler = none ∧
    (DeepLearning.init α n).scaler = none ∧
    (w.loadScalerFile s.scaler_name = .notFound →
      GMM.detect_anomalies s w X =
        ([.msg "Scaler file not found."], .error (.attributeError "scaler"))) ∧
    (w.loadScalerFile s.scaler_name = .err e →
      GMM.detect_anomalies s w X =
        ([.msg ("An error occurred while loading the scaler: " ++ e)],
          .error (.attributeError "scaler"))) ∧
    (w.loadScalerFile d.scaler_name = .notFound →
      DeepLearning.detect_anomalies d w X =
        ([.msg "Scaler file not found."], .error (.attributeError "scaler"))) ∧
    (w.loadScalerFile d.scaler_name = .err e →
      DeepLearning.detect_anomalies d w X =
        ([.msg ("An error occurred while loading the scaler: " ++ e)],
          .error (.attributeError "scaler"))) := by
  refine ⟨rfl, rfl, ?_, ?_, ?_, ?_⟩ <;> intro h <;>
    simp [GMM.detect_anomalies, GMM.detectPrepare, GMM.load_scaler,
      DeepLearning.detect_anomalies, DeepLearning.detectPrepare,
      DeepLearning.load_scaler, h, hs, hd]

/-- Witness for `missing_scaler_attribute_error`: fresh instances against
a world with missing files and one with corrupt files. -/
theorem missing_scaler_attribute_error_witness :
    (GMM.detect_anomalies (GMM.init ℚ "velocity") qWorldMissing [[1]] =
      ([.msg "Scaler file not found."], .error (.attributeError "scaler"))) ∧
    (GMM.detect_anomalies (GMM.init ℚ "velocity") qWorldCorrupt [[1]] =
      ([.msg ("An error occurred while loading the scaler: " ++ "corrupt")],
        .error (.attributeError "scaler"))) ∧
    (DeepLearning.detect_anomalies (DeepLearning.init ℚ "velocity") qWorldMissing [[1]] =
      ([.msg "Scaler file not found."], .error (.attributeError "scaler"))) ∧
    (DeepLearning.detect_anomalies (DeepLearning.init ℚ "velocity") qWorldCorrupt [[1]] =
      ([.msg ("An error occurred while loading the scaler: " ++ "corrupt")],
        .error (.attributeError "scaler"))) :=
  ⟨(missing_scaler_attribute_error ℚ (GMM.init ℚ "velocity") (DeepLearning.init ℚ "velocity")
      qWorldMissing [[1]] "corrupt" "velocity" rfl rfl).2.2.1 rfl,
   (missing_scaler_attribute_error ℚ (GMM.init ℚ "velocity") (DeepLearning.init ℚ "velocity")
      qWorldCorrupt [[1]] "corrupt" "velocity" rfl rfl).2.2.2.1 rfl,
   (missing_scaler_attribute_error ℚ (GMM.init ℚ "velocity") (DeepLearning.init ℚ "velocity")
      qWorldMissing [[1]] "corrupt" "velocity" rfl rfl).2.2.2.2.1 rfl,
   (missing_scaler_attribute_error ℚ (GMM.init ℚ "velocity") (DeepLearning.init ℚ "velocity")
      qWorldCorrupt [[1]] "corrupt" "velocity" rfl rfl).2.2.2.2.2 rfl⟩
